import Mathlib

/-!
Shallow embedding of the kartta-labs Geolocalizer repository
(src/util/image_processor.py, src/geolocalizer.py, src/main.py).

Conventions: Python ints are `Int`/`Nat`; Python floats are modelled as `ℚ`;
Python `int()` truncation toward zero is `pyInt`; code that can raise
returns `Except PyError`; in-place mutation of protobuf response objects is
modelled by explicit state passing (a function returns the post-states of
the arguments it mutates alongside its return value).
-/

namespace Geoloc

/-- Errors a run of the embedded Python code can raise.  `fuelExhausted` is
the artificial bound on recursion depth (the Python code has none). -/
inductive PyError where
  | valueError
  | visionApiError
  | attributeError
  | fuelExhausted
deriving DecidableEq

/-- Python `int()` applied to a rational: truncation toward zero. -/
def pyInt (q : ℚ) : ℤ := if 0 ≤ q then ⌊q⌋ else ⌈q⌉

/-- A vertex of a bounding polygon (Vision protobuf `Vertex`: integer
pixel coordinates). -/
structure Vertex where
  x : ℤ
  y : ℤ
deriving DecidableEq

/-- A bounding box: the `vertices` sequence of a `bounding_box` field. -/
structure BoundingBox where
  vertices : List Vertex
deriving DecidableEq

/-- A `Symbol` of the document-text tree.  `break_type` stands for
`symbol.property.detected_break.type` (0 = no detected break). -/
structure Symbol where
  text : String
  bounding_box : BoundingBox
  break_type : ℕ
deriving DecidableEq

/-- A `Word` of the document-text tree. -/
structure Word where
  symbols : List Symbol
  bounding_box : BoundingBox
deriving DecidableEq

/-- A `Paragraph`; `confidence` is read by the geolocalizer's filter. -/
structure Paragraph where
  words : List Word
  bounding_box : BoundingBox
  confidence : ℚ
deriving DecidableEq

/-- A `Block` of the document-text tree. -/
structure Block where
  paragraphs : List Paragraph
  bounding_box : BoundingBox
deriving DecidableEq

/-- A `Page`.  The spec's data model associates a BoundingBox with a Page
as well as with the lower levels; the merge code never reads or writes the
page-level box. -/
structure Page where
  blocks : List Block
  bounding_box : BoundingBox
deriving DecidableEq

/-- The `full_text_annotation` payload of a Vision response: the joined
`text` plus the `pages` forest. -/
structure FullText where
  text : String
  pages : List Page
deriving DecidableEq

/-- A Vision `AnnotateImageResponse`: its `full_text_annotation` (field
`fullText` here) and its `error.code` (field `error_code`, 0 = no error). -/
structure AnnotateImageResponse where
  fullText : FullText
  error_code : ℕ
deriving DecidableEq

/-- The `Axis` enum of image_processor.py. -/
inductive Axis where
  | horizontal
  | vertical
deriving DecidableEq

/-- A tile is identified by its absolute pixel region inside the original
image; PIL crop boxes are (left, top, right, bottom). -/
structure Region where
  left : ℤ
  top : ℤ
  right : ℤ
  bottom : ℤ
deriving DecidableEq

/-- Pixel width of a region (PIL: `right - left`). -/
def Region.width (r : Region) : ℤ := r.right - r.left

/-- Pixel height of a region (PIL: `bottom - top`). -/
def Region.height (r : Region) : ℤ := r.bottom - r.top

/-- `_divide_image_left_and_right`: crops of the current tile, returned as
absolute regions of the original image, plus the offset (`right_x`).
`left_x = int((width + x_overlap)/2)`, `right_x = int((width - x_overlap)/2)`;
the left crop box is `(0, 0, left_x, height)` and the right crop box is
`(right_x, 0, width, height)`, both relative to the current tile. -/
def divide_image_left_and_right (r : Region) (overlap : ℚ) :
    Region × Region × ℤ :=
  let width := r.width
  let height := r.height
  let x_overlap : ℚ := (width : ℚ) * overlap
  let left_x := pyInt (((width : ℚ) + x_overlap) / 2)
  let right_x := pyInt (((width : ℚ) - x_overlap) / 2)
  (⟨r.left, r.top, r.left + left_x, r.top + height⟩,
   ⟨r.left + right_x, r.top, r.left + width, r.top + height⟩,
   right_x)

/-- `_divide_image_top_and_bottom`: the top crop box is
`(0, 0, width, top_y)` and the bottom crop box is
`(0, bottom_y, width, height)`; the offset is `bottom_y`. -/
def divide_image_top_and_bottom (r : Region) (overlap : ℚ) :
    Region × Region × ℤ :=
  let width := r.width
  let height := r.height
  let y_overlap : ℚ := (height : ℚ) * overlap
  let top_y := pyInt (((height : ℚ) + y_overlap) / 2)
  let bottom_y := pyInt (((height : ℚ) - y_overlap) / 2)
  (⟨r.left, r.top, r.left + width, r.top + top_y⟩,
   ⟨r.left, r.top + bottom_y, r.left + width, r.top + height⟩,
   bottom_y)

/-- The effect of `_add_offset` on one vertex: add the offset to `x`
(horizontal axis) or to `y` (vertical axis). -/
def shiftVertex (offset : ℤ) (axis : Axis) (v : Vertex) : Vertex :=
  match axis with
  | .horizontal => ⟨v.x + offset, v.y⟩
  | .vertical => ⟨v.x, v.y + offset⟩

/-- `_add_offset` on one element's bounding box: every vertex is shifted. -/
def add_offset (offset : ℤ) (b : BoundingBox) (axis : Axis) : BoundingBox :=
  ⟨b.vertices.map (shiftVertex offset axis)⟩

/-- `_merge_responses` applies `_add_offset` to each symbol of a word and
then to the word itself. -/
def shiftSymbol (offset : ℤ) (axis : Axis) (s : Symbol) : Symbol :=
  { s with bounding_box := add_offset offset s.bounding_box axis }

/-- Offset effect on a word: its symbols, then its own box. -/
def shiftWord (offset : ℤ) (axis : Axis) (w : Word) : Word :=
  { w with symbols := w.symbols.map (shiftSymbol offset axis),
           bounding_box := add_offset offset w.bounding_box axis }

/-- Offset effect on a paragraph: its words, then its own box. -/
def shiftParagraph (offset : ℤ) (axis : Axis) (p : Paragraph) : Paragraph :=
  { p with words := p.words.map (shiftWord offset axis),
           bounding_box := add_offset offset p.bounding_box axis }

/-- Offset effect on a block: its paragraphs, then its own box. -/
def shiftBlock (offset : ℤ) (axis : Axis) (b : Block) : Block :=
  { b with paragraphs := b.paragraphs.map (shiftParagraph offset axis),
           bounding_box := add_offset offset b.bounding_box axis }

/-- Per-page effect of the offset loop of `_merge_responses`: every box
from Block down is shifted; the page-level box is untouched (the loop
never calls `_add_offset` on the page itself). -/
def shiftPage (offset : ℤ) (axis : Axis) (p : Page) : Page :=
  { p with blocks := p.blocks.map (shiftBlock offset axis) }

/-- Value-level content of `_merge_responses`, as the simultaneous
mutation of the two `full_text_annotation` objects: the first component is
the post-state of `sub_response1.full_text_annotation` (whose `text` is
overwritten with `'{} {}'.format(t1, t2)` and whose page list receives the
shifted pages of `sub_response2`; the returned annotation aliases it), the
second is the post-state of `sub_response2.full_text_annotation` (its
pages' boxes shifted in place). -/
def merge_fta (offset : ℤ) (fta1 fta2 : FullText) (axis : Axis) :
    FullText × FullText :=
  let shifted := fta2.pages.map (shiftPage offset axis)
  (⟨fta1.text ++ " " ++ fta2.text, fta1.pages ++ shifted⟩,
   ⟨fta2.text, shifted⟩)

/-- A Python value flowing through the recursion of
`_call_vision_api_helper`: either a protobuf `AnnotateImageResponse`
(returned at a leaf) or the plain dict `{'full_text_annotation': fta}`
that `_merge_responses` returns. -/
inductive RespLike where
  | resp : AnnotateImageResponse → RespLike
  | dict : FullText → RespLike
deriving DecidableEq

/-- Python attribute access `value.full_text_annotation`: it raises
`AttributeError` on a dict (a dict carries its entries as keys, not as
attributes). -/
def getFta : RespLike → Except PyError FullText
  | .resp r => .ok r.fullText
  | .dict _ => .error .attributeError

/-- Write back a mutated `full_text_annotation` into the holding value. -/
def setFta : RespLike → FullText → RespLike
  | .resp r, f => .resp { r with fullText := f }
  | .dict _, f => .dict f

/-- `_merge_responses(offset, sub_response1, sub_response2, axis)`.
Returns the post-states of both arguments and the returned value
`{'full_text_annotation': merged}`. -/
def merge_responses (offset : ℤ) (sub_response1 sub_response2 : RespLike)
    (axis : Axis) : Except PyError (RespLike × RespLike × RespLike) := do
  let fta1 ← getFta sub_response1
  let fta2 ← getFta sub_response2
  let m := merge_fta offset fta1 fta2 axis
  pure (setFta sub_response1 m.1, setFta sub_response2 m.2, .dict m.1)

/-- One leaf external OCR invocation: the tile's region, its encoded byte
size, and the byte budget `max_size_bytes` computed at that node. -/
structure LeafCall where
  region : Region
  file_size : ℕ
  max_size_bytes : ℚ
deriving DecidableEq

/-- `_call_vision_api_helper`, parameterised by the environment: `fsize`
gives the encoded byte size of a tile's file and `ocr` the external OCR
response for a tile.  `fuel` bounds the recursion depth (the Python code
has no bound).  Besides the returned value, the list of leaf OCR calls
made by the run is returned, in execution order.  Note: exactly as in the
source, the recursive calls receive the computed `max_size_bytes` as their
`max_size_megabytes` argument, and the vertical branch passes
`(bottom_response, top_response)` to `_merge_responses`. -/
def call_vision_api_helper (fsize : Region → ℕ)
    (ocr : Region → AnnotateImageResponse) (fuel : ℕ) (r : Region)
    (max_size_megabytes : ℚ) (overlap : ℚ) :
    Except PyError (RespLike × List LeafCall) :=
  match fuel with
  | 0 => .error .fuelExhausted
  | fuel + 1 =>
    let width := r.width
    let height := r.height
    let file_size := fsize r
    let max_size_bytes := max_size_megabytes * 1024 * 1024
    if (file_size : ℚ) < max_size_bytes then
      .ok (.resp (ocr r), [⟨r, file_size, max_size_bytes⟩])
    else if width ≥ height then
      let d := divide_image_left_and_right r overlap
      do
        let l ← call_vision_api_helper fsize ocr fuel d.1 max_size_bytes overlap
        let rr ← call_vision_api_helper fsize ocr fuel d.2.1 max_size_bytes overlap
        let m ← merge_responses d.2.2 l.1 rr.1 .horizontal
        pure (m.2.2, l.2 ++ rr.2)
    else
      let d := divide_image_top_and_bottom r overlap
      do
        let t ← call_vision_api_helper fsize ocr fuel d.1 max_size_bytes overlap
        let b ← call_vision_api_helper fsize ocr fuel d.2.1 max_size_bytes overlap
        let m ← merge_responses d.2.2 b.1 t.1 .vertical
        pure (m.2.2, t.2 ++ b.2)

/-- `call_vision_api(uri, max_size_megabytes=20, overlap=0.25)`: checks
the URI, downloads the image (the oracle arguments stand for the
downloaded file), and runs the recursive helper on the whole image. -/
def call_vision_api (fsize : Region → ℕ)
    (ocr : Region → AnnotateImageResponse) (fuel : ℕ) (uri : String)
    (whole : Region) (max_size_megabytes : ℚ) (overlap : ℚ) :
    Except PyError (RespLike × List LeafCall) :=
  if uri = "" then .error .valueError
  else call_vision_api_helper fsize ocr fuel whole max_size_megabytes overlap

/-! ### src/geolocalizer.py -/

/-- The NL entity types the geolocalizer checks for. -/
inductive EntityType where
  | address
  | location
  | other
deriving DecidableEq

/-- An entity of the NL `analyze_entities` response. -/
structure Entity where
  name : String
  type : EntityType
deriving DecidableEq

/-- A geocoding result's `geometry.location`. -/
structure GeoPoint where
  lat : ℚ
  lng : ℚ
deriving DecidableEq

/-- The external clients a `Geolocalizer` instance holds: the Vision
client (`document_text_detection` response per URI), the NL client
(entities per text) and the Maps geocoder (results per query). -/
structure Clients where
  vision : String → AnnotateImageResponse
  nlp : String → List Entity
  gmaps : String → List GeoPoint

/-- One external OCR invocation made by the pipeline: either a direct
`document_text_detection` call, or an invocation of the tiler entry point
`call_vision_api` of image_processor.py. -/
inductive OCRCallKind where
  | direct (uri : String)
  | tiler (uri : String)
deriving DecidableEq

/-- `Geolocalizer._detect_texts(uri)`, together with the list of external
OCR calls it makes: raise for a missing URI (before any call), raise when
the response carries an error code, return `None` when the page list is
empty, and otherwise return `pages[0]`. -/
def detect_texts (c : Clients) (uri : String) :
    Except PyError (Option Page) × List OCRCallKind :=
  if uri = "" then (.error .valueError, [])
  else
    let response := c.vision uri
    if response.error_code ≠ 0 then (.error .visionApiError, [.direct uri])
    else
      match response.fullText.pages with
      | [] => (.ok none, [.direct uri])
      | p :: _ => (.ok (some p), [.direct uri])

/-- The `[0-9A-Za-z]` character class of the `re.sub` call. -/
def isAlnum (c : Char) : Bool := c.isAlpha || c.isDigit

/-- Worker for `re.sub('[^0-9A-Za-z]+', ' ', s)`: the flag records whether
the previous character belonged to a replaced run. -/
def reSubAux : Bool → List Char → List Char
  | _, [] => []
  | inRun, c :: cs =>
    if isAlnum c then c :: reSubAux false cs
    else if inRun then reSubAux true cs
    else ' ' :: reSubAux true cs

/-- `re.sub('[^0-9A-Za-z]+', ' ', s)`: every maximal run of
non-alphanumeric characters becomes a single space. -/
def reSubNonAlnum (s : String) : String := ⟨reSubAux false s.data⟩

/-- `Geolocalizer._CONFIDENCE_THRESHOLD`. -/
def CONFIDENCE_THRESHOLD : ℚ := 9 / 10

/-- The `symbols` string assembled for one word: each symbol's text,
followed by a space when a break is detected. -/
def wordText (w : Word) : String :=
  w.symbols.foldl
    (fun acc s => acc ++ s.text ++ if s.break_type ≠ 0 then " " else "") ""

/-- `words += symbols` for one word. -/
def wordStep (acc : String) (w : Word) : String := acc ++ wordText w

/-- Per-paragraph step of the corpus loop: a paragraph whose confidence is
below the threshold is skipped (`continue`). -/
def paragraphStep (acc : String) (p : Paragraph) : String :=
  if p.confidence < CONFIDENCE_THRESHOLD then acc
  else p.words.foldl wordStep acc

/-- Per-block step of the corpus loop. -/
def blockStep (acc : String) (b : Block) : String :=
  b.paragraphs.foldl paragraphStep acc

/-- The `words` accumulation loop of `_process_and_combine_texts`. -/
def pageWords (t : Page) : String := t.blocks.foldl blockStep ""

/-- `Geolocalizer._analyze_entities(text)`: keep the names of ADDRESS and
LOCATION entities, each followed by a space. -/
def analyze_entities (c : Clients) (text : String) : String :=
  (c.nlp text).foldl
    (fun acc e =>
      if e.type = .address ∨ e.type = .location then acc ++ e.name ++ " "
      else acc) ""

/-- `Geolocalizer._process_and_combine_texts(texts)`. -/
def process_and_combine_texts (c : Clients) (texts : Option Page) :
    Option String :=
  match texts with
  | none => none
  | some t =>
    let words := reSubNonAlnum (pageWords t)
    if words = "" then none
    else some (analyze_entities c words)

/-- `Geolocalizer._geocode(text)`. -/
def geocode (c : Clients) (text : Option String) : Option (List GeoPoint) :=
  match text with
  | none => none
  | some t =>
    if t = "" then none
    else
      let results := c.gmaps t
      if results = [] then none else some results

/-- `Geolocalizer.geolocalize(uri)`: the `(text_blob, candidates)` pair
and the list of external OCR calls issued. -/
def geolocalize (c : Clients) (uri : String) :
    Except PyError (Option String × Option (List GeoPoint)) ×
      List OCRCallKind :=
  match detect_texts c uri with
  | (.error e, calls) => (.error e, calls)
  | (.ok texts, calls) =>
    let text_blob := process_and_combine_texts c texts
    let candidates := geocode c text_blob
    (.ok (text_blob, candidates), calls)

/-! ### Derived notions used by the statements -/

/-- All bounding-box vertices in the Block→Paragraph→Word→Symbol subtree
of one block. -/
def blockVertices (b : Block) : List Vertex :=
  b.bounding_box.vertices ++
    b.paragraphs.flatMap (fun p =>
      p.bounding_box.vertices ++
        p.words.flatMap (fun w =>
          w.bounding_box.vertices ++
            w.symbols.flatMap (fun s => s.bounding_box.vertices)))

/-- All bounding-box vertices of a page strictly below the page level
(the page's own box excluded). -/
def pageSubVertices (p : Page) : List Vertex :=
  p.blocks.flatMap blockVertices

/-- A response reduced to its first page (what a consumer that reads only
`pages[0]` can observe). -/
def firstPageOnly (r : AnnotateImageResponse) : AnnotateImageResponse :=
  { r with fullText := { r.fullText with pages := r.fullText.pages.take 1 } }

/-- Whether a paragraph passes the confidence filter. -/
def confidentPara (p : Paragraph) : Bool :=
  !decide (p.confidence < CONFIDENCE_THRESHOLD)

/-- A block with its low-confidence paragraphs removed. -/
def keepConfidentBlock (b : Block) : Block :=
  { b with paragraphs := b.paragraphs.filter confidentPara }

/-- A page with its low-confidence paragraphs removed. -/
def keepConfident (t : Page) : Page :=
  { t with blocks := t.blocks.map keepConfidentBlock }

/-- A leaf response with one page, one block, one paragraph (confidence
1), one word, and one symbol carrying the given text and single-vertex
box; all other boxes empty, no error. -/
def mkPage (t : String) (v : Vertex) : Page :=
  ⟨[⟨[⟨[⟨[⟨t, ⟨[v]⟩, 0⟩], ⟨[]⟩⟩], ⟨[]⟩, 1⟩], ⟨[]⟩⟩], ⟨[]⟩⟩

/-- The leaf `AnnotateImageResponse` built from `mkPage`. -/
def mkLeafResp (t : String) (v : Vertex) : AnnotateImageResponse :=
  ⟨⟨t, [mkPage t v]⟩, 0⟩

/-! ### Concrete scenarios -/

/-- A 2×4 (taller than wide) original image. -/
def regionTall : Region := ⟨0, 0, 2, 4⟩

/-- Size oracle for the tall scenario: the original is 30000000 bytes,
every crop is 10 bytes. -/
def fsizeTall : Region → ℕ := fun r => if r = regionTall then 30000000 else 10

/-- OCR oracle for the tall scenario: the top tile reads symbol "T" at its
local (0,0); the bottom tile reads symbol "B" at its local (0,0), which
is (0,1) in the coordinates of the original image. -/
def ocrTall : Region → AnnotateImageResponse := fun r =>
  if r = (⟨0, 0, 2, 3⟩ : Region) then mkLeafResp "T" ⟨0, 0⟩
  else if r = (⟨0, 1, 2, 4⟩ : Region) then mkLeafResp "B" ⟨0, 0⟩
  else mkLeafResp "X" ⟨9, 9⟩

/-- A 4×2 (wider than tall) original image. -/
def regionWide : Region := ⟨0, 0, 4, 2⟩

/-- Size oracle for the wide scenario: the original is 30 MB
(31457280 bytes), every crop is 25 MB (26214400 bytes) — still above the
20 MB budget. -/
def fsizeWide : Region → ℕ :=
  fun r => if r = regionWide then 31457280 else 26214400

/-- OCR oracle for the wide scenario. -/
def ocrWide : Region → AnnotateImageResponse := fun r =>
  if r = (⟨0, 0, 2, 2⟩ : Region) then mkLeafResp "L" ⟨0, 0⟩
  else mkLeafResp "R" ⟨0, 0⟩

/-- OCR oracle whose left-tile response carries service error code 13. -/
def ocrWideErr : Region → AnnotateImageResponse := fun r =>
  if r = (⟨0, 0, 2, 2⟩ : Region) then
    { mkLeafResp "L" ⟨0, 0⟩ with error_code := 13 }
  else mkLeafResp "R" ⟨0, 0⟩

/-! ### Helper lemmas -/

theorem pyInt_of_nonneg (q : ℚ) (h : 0 ≤ q) : pyInt q = ⌊q⌋ := if_pos h

theorem pyInt_nonpos (q : ℚ) (h : q ≤ 0) : pyInt q ≤ 0 := by
  unfold pyInt
  split
  · have hq : q = 0 := le_antisymm h (by assumption)
    simp [hq]
  · exact Int.ceil_le.2 (by exact_mod_cast h)

theorem floor_half_pair (w k : ℤ) :
    ⌊((w + k : ℤ) : ℚ) / 2⌋ - ⌊((w - k : ℤ) : ℚ) / 2⌋ = k := by
  rcases Int.even_or_odd (w + k) with ⟨m, hm⟩ | ⟨m, hm⟩
  · have hm2 : w + k = 2 * m := by omega
    have hm3 : w - k = 2 * (m - k) := by omega
    rw [hm2, hm3]
    have e1 : ((2 * m : ℤ) : ℚ) / 2 = (m : ℚ) := by push_cast; ring
    have e2 : ((2 * (m - k) : ℤ) : ℚ) / 2 = ((m - k : ℤ) : ℚ) := by
      push_cast; ring
    rw [e1, e2, Int.floor_intCast, Int.floor_intCast]
    omega
  · have hm2 : w + k = 2 * m + 1 := by omega
    have hm3 : w - k = 2 * (m - k) + 1 := by omega
    rw [hm2, hm3]
    have e1 : ((2 * m + 1 : ℤ) : ℚ) / 2 = (m : ℚ) + 1 / 2 := by
      push_cast; ring
    have e2 : ((2 * (m - k) + 1 : ℤ) : ℚ) / 2 = ((m - k : ℤ) : ℚ) + 1 / 2 := by
      push_cast; ring
    have hhalf : ⌊(1 / 2 : ℚ)⌋ = 0 := by norm_num
    rw [e1, e2, Int.floor_int_add, Int.floor_int_add, hhalf]
    omega

/-- The two crop coordinates computed by a divide function, for a positive
dimension `d` and an overlap fraction in (0,1). -/
theorem split_coords (d : ℤ) (f : ℚ) (hd : 0 < d) (h0 : 0 < f) (h1 : f < 1) :
    pyInt (((d : ℚ) + (d : ℚ) * f) / 2) = ⌊(d : ℚ) * (1 + f) / 2⌋ ∧
    pyInt (((d : ℚ) - (d : ℚ) * f) / 2) = ⌊(d : ℚ) * (1 - f) / 2⌋ ∧
    ∀ k : ℤ, (k : ℚ) = (d : ℚ) * f →
      pyInt (((d : ℚ) + (d : ℚ) * f) / 2) -
        pyInt (((d : ℚ) - (d : ℚ) * f) / 2) = k := by
  have hd' : (0 : ℚ) < (d : ℚ) := by exact_mod_cast hd
  have hdf : (0 : ℚ) < (d : ℚ) * f := mul_pos hd' h0
  have hdfw : (d : ℚ) * f < (d : ℚ) := by nlinarith
  have hplus : (0 : ℚ) ≤ ((d : ℚ) + (d : ℚ) * f) / 2 := by nlinarith
  have hminus : (0 : ℚ) ≤ ((d : ℚ) - (d : ℚ) * f) / 2 := by nlinarith
  refine ⟨?_, ?_, ?_⟩
  · rw [pyInt_of_nonneg _ hplus]
    congr 1
    ring
  · rw [pyInt_of_nonneg _ hminus]
    congr 1
    ring
  · intro k hk
    rw [pyInt_of_nonneg _ hplus, pyInt_of_nonneg _ hminus]
    have e1 : ((d : ℚ) + (d : ℚ) * f) / 2 = ((d + k : ℤ) : ℚ) / 2 := by
      rw [← hk]; push_cast; ring
    have e2 : ((d : ℚ) - (d : ℚ) * f) / 2 = ((d - k : ℤ) : ℚ) / 2 := by
      rw [← hk]; push_cast; ring
    rw [e1, e2]
    exact floor_half_pair d k

/-- `merge_responses` either returns a value or raises `AttributeError`. -/
theorem merge_responses_cases (o : ℤ) (a b : RespLike) (ax : Axis) :
    (∃ v, merge_responses o a b ax = .ok v) ∨
      merge_responses o a b ax = .error .attributeError := by
  cases a <;> cases b
  · exact Or.inl ⟨_, rfl⟩
  · exact Or.inr rfl
  · exact Or.inr rfl
  · exact Or.inr rfl

/-! ### Claims -/

/-- C1 (status code_bug): on the tall 2×4 image the driver splits
vertically with offset 1, then calls the merger with the bottom response
first and the top response second, so the *top* tile's symbol — whose
original coordinates are (0,0) — ends up at (0,1), while the bottom
tile's symbol stays at its local (0,0) instead of the original-frame
(0,1).  The merged response is therefore not expressed in the coordinate
space of the original image; the claim-conform result (top unshifted
first, bottom shifted by the offset) differs from what the code
produces. -/

theorem C1_vertical_merge_swap :
    call_vision_api_helper fsizeTall ocrTall 2 regionTall 20 (1 / 2) =
      .ok (.dict ⟨"B T", [mkPage "B" ⟨0, 0⟩, mkPage "T" ⟨0, 1⟩]⟩,
        [⟨⟨0, 0, 2, 3⟩, 10, 21990232555520⟩,
         ⟨⟨0, 1, 2, 4⟩, 10, 21990232555520⟩]) ∧
    (⟨"B T", [mkPage "B" ⟨0, 0⟩, mkPage "T" ⟨0, 1⟩]⟩ : FullText) ≠
      ⟨"T B", [mkPage "T" ⟨0, 0⟩, mkPage "B" ⟨0, 1⟩]⟩ := by
  constructor
  · with_unfolding_all rfl
  · with_unfolding_all decide

set_option maxRecDepth 2000 in
/-- C2 (status code_bug): on the wide 30 MB image with
`max_size_megabytes = 20`, the root node's byte budget is
20·1024·1024 = 20971520, but the recursive calls receive 20971520 as
their `max_size_megabytes`, so both child tiles are checked against
20971520·1024·1024 = 21990232555520 bytes and are sent to the external
OCR call as leaves even though their encoded size, 26214400 bytes, is not
below the root budget. -/
theorem C2_budget_inflation :
    call_vision_api_helper fsizeWide ocrWide 2 regionWide 20 (1 / 4) =
      .ok (.dict ⟨"L R", [mkPage "L" ⟨0, 0⟩, mkPage "R" ⟨1, 0⟩]⟩,
        [⟨⟨0, 0, 2, 2⟩, 26214400, 21990232555520⟩,
         ⟨⟨1, 0, 4, 2⟩, 26214400, 21990232555520⟩]) ∧
    (20 : ℚ) * 1024 * 1024 = 20971520 ∧
    ¬ ((26214400 : ℚ) < 20971520) ∧
    (20971520 : ℚ) ≠ 21990232555520 := by
  have h1 : call_vision_api_helper fsizeWide ocrWide 2 regionWide 20 (1 / 4) =
      .ok (.dict ⟨"L R", [mkPage "L" ⟨0, 0⟩, mkPage "R" ⟨1, 0⟩]⟩,
        [⟨⟨0, 0, 2, 2⟩, 26214400, 21990232555520⟩,
         ⟨⟨1, 0, 4, 2⟩, 26214400, 21990232555520⟩]) := by
    with_unfolding_all rfl
  have h2 : (20 : ℚ) * 1024 * 1024 = 20971520 := by norm_num
  have h3 : ¬ ((26214400 : ℚ) < 20971520) := by norm_num
  have h4 : (20971520 : ℚ) ≠ 21990232555520 := by norm_num
  exact ⟨h1, h2, h3, h4⟩

/-- C7 (status code_bug): a merge of two leaf responses succeeds and
returns the plain dict `{'full_text_annotation': …}`; feeding that result
into a further merge raises `AttributeError`, because attribute access
`sub_response1.full_text_annotation` fails on a dict.  The result of a
merge can therefore not serve as an input to a further merge. -/
theorem C7_nested_merge_attribute_error :
    merge_responses 100 (.resp (mkLeafResp "a" ⟨0, 0⟩))
        (.resp (mkLeafResp "b" ⟨0, 0⟩)) .horizontal =
      .ok (.resp ⟨⟨"a b", [mkPage "a" ⟨0, 0⟩, mkPage "b" ⟨100, 0⟩]⟩, 0⟩,
        .resp ⟨⟨"b", [mkPage "b" ⟨100, 0⟩]⟩, 0⟩,
        .dict ⟨"a b", [mkPage "a" ⟨0, 0⟩, mkPage "b" ⟨100, 0⟩]⟩) ∧
    merge_responses 50
        (.dict ⟨"a b", [mkPage "a" ⟨0, 0⟩, mkPage "b" ⟨100, 0⟩]⟩)
        (.resp (mkLeafResp "c" ⟨0, 0⟩)) .horizontal =
      .error .attributeError := by
  constructor
  · with_unfolding_all rfl
  · with_unfolding_all rfl

/-- C9 (counterexample): with `overlap = 2` (outside (0,1)) the splitter
does not fail: it returns two tiles and the offset −2; with a zero-area
image it returns two empty tiles and offset 0.  No InvalidInput error
exists in the splitter. -/
theorem C9_no_validation_eval :
    divide_image_left_and_right ⟨0, 0, 4, 2⟩ 2 =
      (⟨0, 0, 6, 2⟩, ⟨-2, 0, 4, 2⟩, -2) ∧
    divide_image_left_and_right ⟨0, 0, 0, 0⟩ (1 / 4) =
      (⟨0, 0, 0, 0⟩, ⟨0, 0, 0, 0⟩, 0) := by
  constructor
  · with_unfolding_all rfl
  · with_unfolding_all rfl

/-- C9 (amended): the splitter performs no input validation and never
fails; calls with an out-of-range overlap fraction still return a
`SplitResult`, and for `overlapFraction ≥ 1` the returned offset is ≤ 0
(a degenerate tiling), on both axes. -/
theorem C9_degenerate_offset (r : Region) (f : ℚ) (hw : 0 ≤ r.width)
    (hh : 0 ≤ r.height) (hf : 1 ≤ f) :
    (divide_image_left_and_right r f).2.2 ≤ 0 ∧
    (divide_image_top_and_bottom r f).2.2 ≤ 0 := by
  have hw' : (0 : ℚ) ≤ (r.width : ℚ) := by exact_mod_cast hw
  have hh' : (0 : ℚ) ≤ (r.height : ℚ) := by exact_mod_cast hh
  have hwf : (r.width : ℚ) * 1 ≤ (r.width : ℚ) * f :=
    mul_le_mul_of_nonneg_left hf hw'
  have hhf : (r.height : ℚ) * 1 ≤ (r.height : ℚ) * f :=
    mul_le_mul_of_nonneg_left hf hh'
  constructor
  · simp only [divide_image_left_and_right]
    exact pyInt_nonpos _ (by nlinarith)
  · simp only [divide_image_top_and_bottom]
    exact pyInt_nonpos _ (by nlinarith)

/-- Witness for `C9_degenerate_offset` at the 4×2 image and overlap 2. -/
theorem C9_degenerate_offset_witness :
    (0 : ℤ) ≤ Region.width ⟨0, 0, 4, 2⟩ ∧
    (0 : ℤ) ≤ Region.height ⟨0, 0, 4, 2⟩ ∧ (1 : ℚ) ≤ 2 ∧
    ((divide_image_left_and_right ⟨0, 0, 4, 2⟩ 2).2.2 ≤ 0 ∧
     (divide_image_top_and_bottom ⟨0, 0, 4, 2⟩ 2).2.2 ≤ 0) :=
  ⟨by decide, by decide, by norm_num,
   C9_degenerate_offset ⟨0, 0, 4, 2⟩ 2 (by decide) (by decide) (by norm_num)⟩

/-- A page with no blocks but a nonempty page-level bounding box. -/
def pageBoxOnly : Page := ⟨[], ⟨[⟨0, 0⟩]⟩⟩

/-- C5 (counterexample): merging with offset 5 leaves the page-level
bounding box of the second response's page at (0,0): the merger never
applies the offset at the Page level, contradicting the claim that the
Page-level boxes are shifted as well. -/
theorem C5_page_box_unshifted :
    merge_responses 5 (.resp ⟨⟨"", []⟩, 0⟩)
        (.resp ⟨⟨"", [pageBoxOnly]⟩, 0⟩) .horizontal =
      .ok (.resp ⟨⟨" ", [pageBoxOnly]⟩, 0⟩, .resp ⟨⟨"", [pageBoxOnly]⟩, 0⟩,
        .dict ⟨" ", [pageBoxOnly]⟩) ∧
    pageBoxOnly.bounding_box ≠ add_offset 5 pageBoxOnly.bounding_box .horizontal := by
  constructor
  · with_unfolding_all rfl
  · with_unfolding_all decide

/-- Every bounding-box vertex of the Block→Paragraph→Word→Symbol subtree
of a shifted block is the shift of the corresponding original vertex. -/
theorem blockVertices_shiftBlock (o : ℤ) (ax : Axis) (b : Block) :
    blockVertices (shiftBlock o ax b) = (blockVertices b).map (shiftVertex o ax) := by
  simp [blockVertices, shiftBlock, shiftParagraph, shiftWord, shiftSymbol,
    add_offset, List.map_append, List.map_flatMap, List.flatMap_map,
    Function.comp_def]

/-- C5 (amended): the merger appends `responseB`'s pages after
`responseA`'s, with `offset` added to the x (horizontal) or y (vertical)
coordinate of every vertex in the Block→Paragraph→Word→Symbol subtree of
each of `responseB`'s pages, while the Page-level bounding boxes are left
unchanged. -/
theorem C5_offset_below_page_level (o : ℤ) (ax : Axis) (r1 r2 : FullText) :
    (merge_fta o r1 r2 ax).1.pages = r1.pages ++ r2.pages.map (shiftPage o ax) ∧
    (∀ p : Page, (shiftPage o ax p).bounding_box = p.bounding_box) ∧
    (∀ p : Page, pageSubVertices (shiftPage o ax p) =
      (pageSubVertices p).map (shiftVertex o ax)) := by
  refine ⟨rfl, fun p => rfl, fun p => ?_⟩
  simp [pageSubVertices, shiftPage, List.map_flatMap, List.flatMap_map,
    blockVertices_shiftBlock, Function.comp_def]

/-- C8 (counterexample): the merge overwrites the first input's text and
page list and shifts the second input's boxes in place: the post-states of
both inputs differ from their pre-states, so the operation is not free of
side effects on its inputs. -/
theorem C8_inputs_mutated :
    merge_responses 1 (.resp (mkLeafResp "a" ⟨0, 0⟩))
        (.resp (mkLeafResp "b" ⟨0, 0⟩)) .horizontal =
      .ok (.resp ⟨⟨"a b", [mkPage "a" ⟨0, 0⟩, mkPage "b" ⟨1, 0⟩]⟩, 0⟩,
        .resp ⟨⟨"b", [mkPage "b" ⟨1, 0⟩]⟩, 0⟩,
        .dict ⟨"a b", [mkPage "a" ⟨0, 0⟩, mkPage "b" ⟨1, 0⟩]⟩) ∧
    RespLike.resp ⟨⟨"a b", [mkPage "a" ⟨0, 0⟩, mkPage "b" ⟨1, 0⟩]⟩, 0⟩ ≠
      .resp (mkLeafResp "a" ⟨0, 0⟩) ∧
    RespLike.resp ⟨⟨"b", [mkPage "b" ⟨1, 0⟩]⟩, 0⟩ ≠
      .resp (mkLeafResp "b" ⟨0, 0⟩) := by
  have h1 : merge_responses 1 (.resp (mkLeafResp "a" ⟨0, 0⟩))
      (.resp (mkLeafResp "b" ⟨0, 0⟩)) .horizontal =
      .ok (.resp ⟨⟨"a b", [mkPage "a" ⟨0, 0⟩, mkPage "b" ⟨1, 0⟩]⟩, 0⟩,
        .resp ⟨⟨"b", [mkPage "b" ⟨1, 0⟩]⟩, 0⟩,
        .dict ⟨"a b", [mkPage "a" ⟨0, 0⟩, mkPage "b" ⟨1, 0⟩]⟩) := by
    with_unfolding_all rfl
  have h2 : RespLike.resp ⟨⟨"a b", [mkPage "a" ⟨0, 0⟩, mkPage "b" ⟨1, 0⟩]⟩, 0⟩ ≠
      .resp (mkLeafResp "a" ⟨0, 0⟩) := by with_unfolding_all decide
  have h3 : RespLike.resp ⟨⟨"b", [mkPage "b" ⟨1, 0⟩]⟩, 0⟩ ≠
      .resp (mkLeafResp "b" ⟨0, 0⟩) := by with_unfolding_all decide
  exact ⟨h1, h2, h3⟩

/-- C8 (amended): the merge is a deterministic function of its inputs and
`responseA`'s own pages (hence all its vertices) reappear unmodified as a
prefix of the result, whose text is the space-separated concatenation;
but `responseB`'s post-state has all its pages shifted — the merge
mutates its inputs rather than being side-effect free. -/
theorem C8_first_input_vertices_preserved (o : ℤ) (ax : Axis)
    (r1 r2 : FullText) :
    (merge_fta o r1 r2 ax).1.pages.take r1.pages.length = r1.pages ∧
    (merge_fta o r1 r2 ax).1.text = r1.text ++ " " ++ r2.text ∧
    (merge_fta o r1 r2 ax).2.pages = r2.pages.map (shiftPage o ax) ∧
    (merge_fta o r1 r2 ax).2.text = r2.text := by
  refine ⟨?_, rfl, rfl, rfl⟩
  simp [merge_fta]

/-- C6 (counterexample): for a width-5 image and overlap fraction 1/2 the
two tiles overlap by 2 pixels, not by `dimension * f = 5/2`. -/
theorem C6_overlap_not_exact :
    (divide_image_left_and_right ⟨0, 0, 5, 1⟩ (1 / 2)).1.right -
      (divide_image_left_and_right ⟨0, 0, 5, 1⟩ (1 / 2)).2.1.left = 2 ∧
    (Region.width ⟨0, 0, 5, 1⟩ : ℚ) * (1 / 2) = 5 / 2 ∧
    ((2 : ℤ) : ℚ) ≠ 5 / 2 := by
  have h1 : (divide_image_left_and_right ⟨0, 0, 5, 1⟩ (1 / 2)).1.right -
      (divide_image_left_and_right ⟨0, 0, 5, 1⟩ (1 / 2)).2.1.left = 2 := by
    with_unfolding_all rfl
  exact ⟨h1, by norm_num [Region.width], by norm_num⟩

/-- C6 (amended): for a positive dimension and overlap fraction in (0,1),
on both axes the splitter returns `offset = ⌊dimension·(1−f)/2⌋`, a first
tile of extent `⌊dimension·(1+f)/2⌋` along the split axis, and a second
tile spanning from `offset` to `dimension`; the two tiles overlap by
`⌊dimension·(1+f)/2⌋ − ⌊dimension·(1−f)/2⌋` pixels, which equals
`dimension·f` exactly whenever `dimension·f` is an integer. -/
theorem C6_split_arithmetic (r : Region) (f : ℚ) (hw : 0 < r.width)
    (hh : 0 < r.height) (h0 : 0 < f) (h1 : f < 1) :
    ((divide_image_left_and_right r f).2.2 = ⌊(r.width : ℚ) * (1 - f) / 2⌋ ∧
     (divide_image_left_and_right r f).1.width = ⌊(r.width : ℚ) * (1 + f) / 2⌋ ∧
     (divide_image_left_and_right r f).2.1 =
       ⟨r.left + (divide_image_left_and_right r f).2.2, r.top,
        r.right, r.bottom⟩ ∧
     ∀ k : ℤ, (k : ℚ) = (r.width : ℚ) * f →
       (divide_image_left_and_right r f).1.right -
         (divide_image_left_and_right r f).2.1.left = k) ∧
    ((divide_image_top_and_bottom r f).2.2 = ⌊(r.height : ℚ) * (1 - f) / 2⌋ ∧
     (divide_image_top_and_bottom r f).1.height =
       ⌊(r.height : ℚ) * (1 + f) / 2⌋ ∧
     (divide_image_top_and_bottom r f).2.1 =
       ⟨r.left, r.top + (divide_image_top_and_bottom r f).2.2,
        r.right, r.bottom⟩ ∧
     ∀ k : ℤ, (k : ℚ) = (r.height : ℚ) * f →
       (divide_image_top_and_bottom r f).1.bottom -
         (divide_image_top_and_bottom r f).2.1.top = k) := by
  obtain ⟨hA, hB, hK⟩ := split_coords r.width f hw h0 h1
  obtain ⟨hA', hB', hK'⟩ := split_coords r.height f hh h0 h1
  constructor
  · refine ⟨?_, ?_, ?_, ?_⟩
    · simp only [divide_image_left_and_right]
      exact hB
    · simp only [divide_image_left_and_right, Region.width, add_sub_cancel_left]
      exact hA
    · have e1 : r.left + (r.right - r.left) = r.right := by ring
      have e2 : r.top + (r.bottom - r.top) = r.bottom := by ring
      simp only [divide_image_left_and_right, Region.width, Region.height,
        e1, e2]
    · intro k hk
      simp only [divide_image_left_and_right]
      have h := hK k hk
      linarith
  · refine ⟨?_, ?_, ?_, ?_⟩
    · simp only [divide_image_top_and_bottom]
      exact hB'
    · simp only [divide_image_top_and_bottom, Region.height, add_sub_cancel_left]
      exact hA'
    · have e1 : r.left + (r.right - r.left) = r.right := by ring
      have e2 : r.top + (r.bottom - r.top) = r.bottom := by ring
      simp only [divide_image_top_and_bottom, Region.width, Region.height,
        e1, e2]
    · intro k hk
      simp only [divide_image_top_and_bottom]
      have h := hK' k hk
      linarith

/-- Witness for `C6_split_arithmetic` at the 10×4 image and overlap 1/2:
the horizontal overlap is exactly 5 = 10·(1/2) and the vertical overlap is
exactly 2 = 4·(1/2). -/
theorem C6_split_arithmetic_witness :
    (0 : ℤ) < Region.width ⟨0, 0, 10, 4⟩ ∧
    (0 : ℤ) < Region.height ⟨0, 0, 10, 4⟩ ∧
    (0 : ℚ) < 1 / 2 ∧ (1 / 2 : ℚ) < 1 ∧
    (divide_image_left_and_right ⟨0, 0, 10, 4⟩ (1 / 2)).1.right -
      (divide_image_left_and_right ⟨0, 0, 10, 4⟩ (1 / 2)).2.1.left = 5 ∧
    (divide_image_top_and_bottom ⟨0, 0, 10, 4⟩ (1 / 2)).1.bottom -
      (divide_image_top_and_bottom ⟨0, 0, 10, 4⟩ (1 / 2)).2.1.top = 2 :=
  ⟨by decide, by decide, by norm_num, by norm_num,
   (C6_split_arithmetic ⟨0, 0, 10, 4⟩ (1 / 2) (by decide) (by decide)
     (by norm_num) (by norm_num)).1.2.2.2 5 (by norm_num [Region.width]),
   (C6_split_arithmetic ⟨0, 0, 10, 4⟩ (1 / 2) (by decide) (by decide)
     (by norm_num) (by norm_num)).2.2.2.2 2 (by norm_num [Region.height])⟩

/-- Bind of a successful `Except` computation. -/
theorem except_bind_ok {α β : Type} (v : α) (f : α → Except PyError β) :
    (Except.ok v >>= f) = f v := rfl

/-- Bind of a failed `Except` computation. -/
theorem except_bind_error {α β : Type} (e : PyError)
    (f : α → Except PyError β) :
    ((Except.error e : Except PyError α) >>= f) = .error e := rfl

set_option maxRecDepth 2000 in
/-- C4 (counterexample): the left leaf's OCR response carries service
error code 13, yet the whole run returns a merged response normally — the
driver never inspects `response.error`, so no error is propagated and a
merged (partial-quality) response is returned. -/
theorem C4_error_response_merged :
    (ocrWideErr ⟨0, 0, 2, 2⟩).error_code = 13 ∧
    call_vision_api_helper fsizeWide ocrWideErr 2 regionWide 20 (1 / 4) =
      .ok (.dict ⟨"L R", [mkPage "L" ⟨0, 0⟩, mkPage "R" ⟨1, 0⟩]⟩,
        [⟨⟨0, 0, 2, 2⟩, 26214400, 21990232555520⟩,
         ⟨⟨1, 0, 4, 2⟩, 26214400, 21990232555520⟩]) := by
  have h1 : (ocrWideErr ⟨0, 0, 2, 2⟩).error_code = 13 := by
    with_unfolding_all rfl
  have h2 : call_vision_api_helper fsizeWide ocrWideErr 2 regionWide 20 (1 / 4) =
      .ok (.dict ⟨"L R", [mkPage "L" ⟨0, 0⟩, mkPage "R" ⟨1, 0⟩]⟩,
        [⟨⟨0, 0, 2, 2⟩, 26214400, 21990232555520⟩,
         ⟨⟨1, 0, 4, 2⟩, 26214400, 21990232555520⟩]) := by
    with_unfolding_all rfl
  exact ⟨h1, h2⟩

/-- C4 (amended): the recursive OCR driver cannot fail because of a
service-level error code: every run either returns a value, or fails with
the artificial recursion-depth bound, or fails with the `AttributeError`
of a nested merge.  A leaf response carrying an error code is merged like
any other response. -/
theorem C4_no_service_error_propagation (fs : Region → ℕ)
    (oc : Region → AnnotateImageResponse) (fuel : ℕ) (r : Region)
    (m ov : ℚ) :
    (∃ v, call_vision_api_helper fs oc fuel r m ov = .ok v) ∨
    call_vision_api_helper fs oc fuel r m ov = .error .fuelExhausted ∨
    call_vision_api_helper fs oc fuel r m ov = .error .attributeError := by
  induction fuel generalizing r m with
  | zero => exact Or.inr (Or.inl rfl)
  | succ n ih =>
    simp only [call_vision_api_helper]
    split
    · exact Or.inl ⟨_, rfl⟩
    · split
      · rcases ih (divide_image_left_and_right r ov).1 (m * 1024 * 1024) with
          ⟨v1, hv1⟩ | hv1 | hv1
        · rw [hv1, except_bind_ok]
          rcases ih (divide_image_left_and_right r ov).2.1 (m * 1024 * 1024) with
            ⟨v2, hv2⟩ | hv2 | hv2
          · rw [hv2, except_bind_ok]
            rcases merge_responses_cases (divide_image_left_and_right r ov).2.2
                v1.1 v2.1 .horizontal with ⟨w, hw⟩ | hw
            · rw [hw, except_bind_ok]
              exact Or.inl ⟨_, rfl⟩
            · rw [hw, except_bind_error]
              exact Or.inr (Or.inr rfl)
          · rw [hv2, except_bind_error]
            exact Or.inr (Or.inl rfl)
          · rw [hv2, except_bind_error]
            exact Or.inr (Or.inr rfl)
        · rw [hv1, except_bind_error]
          exact Or.inr (Or.inl rfl)
        · rw [hv1, except_bind_error]
          exact Or.inr (Or.inr rfl)
      · rcases ih (divide_image_top_and_bottom r ov).1 (m * 1024 * 1024) with
          ⟨v1, hv1⟩ | hv1 | hv1
        · rw [hv1, except_bind_ok]
          rcases ih (divide_image_top_and_bottom r ov).2.1 (m * 1024 * 1024) with
            ⟨v2, hv2⟩ | hv2 | hv2
          · rw [hv2, except_bind_ok]
            rcases merge_responses_cases (divide_image_top_and_bottom r ov).2.2
                v2.1 v1.1 .vertical with ⟨w, hw⟩ | hw
            · rw [hw, except_bind_ok]
              exact Or.inl ⟨_, rfl⟩
            · rw [hw, except_bind_error]
              exact Or.inr (Or.inr rfl)
          · rw [hv2, except_bind_error]
            exact Or.inr (Or.inl rfl)
          · rw [hv2, except_bind_error]
            exact Or.inr (Or.inr rfl)
        · rw [hv1, except_bind_error]
          exact Or.inr (Or.inl rfl)
        · rw [hv1, except_bind_error]
          exact Or.inr (Or.inr rfl)

/-- `_process_and_combine_texts` reads only the NL client. -/
theorem process_and_combine_texts_congr (c c' : Clients)
    (hn : c.nlp = c'.nlp) (x : Option Page) :
    process_and_combine_texts c x = process_and_combine_texts c' x := by
  cases x with
  | none => rfl
  | some t => simp only [process_and_combine_texts, analyze_entities, hn]

/-- `_geocode` reads only the Maps client. -/
theorem geocode_congr (c c' : Clients) (hg : c.gmaps = c'.gmaps)
    (x : Option String) : geocode c x = geocode c' x := by
  cases x with
  | none => rfl
  | some t => simp only [geocode, hg]

/-- Reducing a response to its first page does not change its error code. -/
theorem firstPageOnly_error_code (x : AnnotateImageResponse) :
    (firstPageOnly x).error_code = x.error_code := rfl

/-- The page list of a first-page-only response. -/
theorem firstPageOnly_pages (x : AnnotateImageResponse) :
    (firstPageOnly x).fullText.pages = x.fullText.pages.take 1 := rfl

/-- C3: for every provided (nonempty) URI, `geolocalize` issues exactly
one external OCR call — a direct `document_text_detection`, never the
tiler entry point — and its whole result only depends on the first page
of the response: delivering only `pages[0]` changes nothing. -/
theorem C3_single_direct_ocr_call (c : Clients) (uri : String)
    (h : uri ≠ "") :
    (geolocalize c uri).2 = [.direct uri] ∧
    geolocalize c uri =
      geolocalize { c with vision := fun u => firstPageOnly (c.vision u) }
        uri := by
  have hp1 := process_and_combine_texts_congr c
    { c with vision := fun u => firstPageOnly (c.vision u) } rfl
  have hg1 := geocode_congr c
    { c with vision := fun u => firstPageOnly (c.vision u) } rfl
  by_cases hec : (c.vision uri).error_code = 0
  · cases hp : (c.vision uri).fullText.pages with
    | nil =>
      constructor
      · simp [geolocalize, detect_texts, h, hec, hp]
      · simp [geolocalize, detect_texts, h, hec, hp,
          firstPageOnly_error_code, firstPageOnly_pages]
        refine ⟨hp1 _, ?_⟩
        rw [← hp1 _]
        exact hg1 _
    | cons p ps =>
      constructor
      · simp [geolocalize, detect_texts, h, hec, hp]
      · simp [geolocalize, detect_texts, h, hec, hp,
          firstPageOnly_error_code, firstPageOnly_pages]
        refine ⟨hp1 _, ?_⟩
        rw [← hp1 _]
        exact hg1 _
  · constructor
    · simp [geolocalize, detect_texts, h, hec]
    · simp [geolocalize, detect_texts, h, hec, firstPageOnly]

/-- A concrete set of clients for instantiating `C3_single_direct_ocr_call`. -/
def clientsW : Clients :=
  ⟨fun _ => mkLeafResp "T" ⟨0, 0⟩, fun _ => [], fun _ => []⟩

/-- Witness for `C3_single_direct_ocr_call` at `clientsW` and URI "u". -/
theorem C3_single_direct_ocr_call_witness :
    ("u" : String) ≠ "" ∧
    ((geolocalize clientsW "u").2 = [.direct "u"] ∧
     geolocalize clientsW "u" =
       geolocalize
         { clientsW with vision := fun u => firstPageOnly (clientsW.vision u) }
         "u") :=
  ⟨by decide, C3_single_direct_ocr_call clientsW "u" (by decide)⟩

/-- Folding the paragraph loop over a list equals folding it over the list
with the below-threshold paragraphs removed: a skipped paragraph leaves
the accumulator unchanged. -/
theorem paragraphFold_filter (ps : List Paragraph) (acc : String) :
    ps.foldl paragraphStep acc =
      (ps.filter confidentPara).foldl paragraphStep acc := by
  induction ps generalizing acc with
  | nil => rfl
  | cons p ps ih =>
    by_cases hc : p.confidence < CONFIDENCE_THRESHOLD
    · have hcp : confidentPara p = false := by simp [confidentPara, hc]
      have hstep : paragraphStep acc p = acc := by simp [paragraphStep, hc]
      simp [List.filter_cons, hcp, hstep, ih]
    · have hcp : confidentPara p = true := by simp [confidentPara, hc]
      simp [List.filter_cons, hcp, ih]

/-- The assembled corpus of a page equals that of the page with its
low-confidence paragraphs removed. -/
theorem pageWords_keepConfident (t : Page) :
    pageWords t = pageWords (keepConfident t) := by
  have key : ∀ (bs : List Block) (acc : String),
      bs.foldl blockStep acc = (bs.map keepConfidentBlock).foldl blockStep acc := by
    intro bs
    induction bs with
    | nil => intro acc; rfl
    | cons b bs ih =>
      intro acc
      have hb : blockStep acc (keepConfidentBlock b) = blockStep acc b := by
        simp only [blockStep, keepConfidentBlock]
        exact (paragraphFold_filter b.paragraphs acc).symm
      simp only [List.map_cons, List.foldl_cons, hb, ih]
  exact key t.blocks ""

/-- C10: the text corpus assembled by `_process_and_combine_texts` (and
hence the text sent to entity extraction) is unchanged when every
paragraph with confidence below 0.9 is removed beforehand: such
paragraphs contribute no characters. -/
theorem C10_low_confidence_contributes_nothing (c : Clients) (t : Page) :
    process_and_combine_texts c (some t) =
      process_and_combine_texts c (some (keepConfident t)) := by
  simp only [process_and_combine_texts]
  rw [← pageWords_keepConfident]

end Geoloc
